import Mathlib

/-!
A shallow embedding of the result-handling core of nyaa-cli
(src/nyaa_cli/result_handler.py): response normalization
(`ResultHandler.process_results`), page rendering and the page window
(`ResultHandler.display_results`), selection resolution
(`ResultHandler.get_download_link`), the per-query result cache
(`cache_results` / `get_cached_results`) and page navigation
(`next_page` / `previous_page` / `reset_pagination`), together with the
raw record shapes produced by src/nyaa_cli/api.py.  Machine integers are
modelled as `Int` (Python integers are unbounded); fallible code returns
`Except`; the handler's instance attributes become an explicit state
record threaded through the operations.
-/

/-- A Python scalar value as it occurs in a raw API record: a string,
an integer (api.py emits `int(...)` values for seeders/leechers/completed),
or Python's None. -/
inductive PyVal where
  | str : String → PyVal
  | int : Int → PyVal
  | vnone : PyVal
  deriving DecidableEq, Repr

/-- First-match lookup in an association list, the semantics of Python
dict lookup (dict keys are unique, so first match is the match). -/
def dictFind {α : Type} : List (String × α) → String → Option α
  | [], _ => Option.none
  | (k, v) :: rest, q => if k = q then Option.some v else dictFind rest q

/-- Python `d[k] = v`: overwrite the binding in place if the key exists
(insertion order of an existing key is preserved), else append. -/
def dictSet {α : Type} : List (String × α) → String → α → List (String × α)
  | [], q, v => [(q, v)]
  | (k, w) :: rest, q, v =>
      if k = q then (q, v) :: rest else (k, w) :: dictSet rest q v

/-- Python `item.get(key, default)`. -/
def rget (item : List (String × PyVal)) (k : String) (d : PyVal) : PyVal :=
  (dictFind item k).getD d

/-- Strip leading and trailing whitespace from a character list (the
whitespace stripping Python's `int(str)` performs on its argument). -/
def stripWs (cs : List Char) : List Char :=
  ((cs.dropWhile Char.isWhitespace).reverse.dropWhile Char.isWhitespace).reverse

/-- Decimal value of a digit list. -/
def digitsToNat (cs : List Char) : Nat :=
  cs.foldl (fun acc c => acc * 10 + (c.toNat - Char.toNat '0')) 0

/-- Python `int(s)` on a string: optional surrounding whitespace, an
optional sign, then a non-empty run of decimal digits; anything else
raises ValueError, modelled as `Option.none`. -/
def pyIntOfString (s : String) : Option Int :=
  match stripWs s.toList with
  | [] => Option.none
  | '+' :: rest =>
      if rest ≠ [] ∧ rest.all Char.isDigit then Option.some (digitsToNat rest)
      else Option.none
  | '-' :: rest =>
      if rest ≠ [] ∧ rest.all Char.isDigit then Option.some (-(digitsToNat rest : Int))
      else Option.none
  | cs =>
      if cs.all Char.isDigit then Option.some (digitsToNat cs) else Option.none

/-- Python `int(v)` on a raw value: an int is returned as is, a string is
parsed, `int(None)` raises TypeError (`Option.none`). -/
def pyInt : PyVal → Option Int
  | PyVal.int n => Option.some n
  | PyVal.str s => pyIntOfString s
  | PyVal.vnone => Option.none

/-- `int(v)` lifted to `Except`, remembering which field raised. -/
def pyIntE (v : PyVal) (field : String) : Except String Int :=
  match pyInt v with
  | Option.some n => Except.ok n
  | Option.none => Except.error ("ValueError: " ++ field)

/-- The `TorrentResult` dataclass of result_handler.py.  Python performs no
runtime type enforcement on the string-annotated fields, so they hold
whatever raw value `item.get` returned; the three numeric fields hold the
result of `int(...)`. -/
structure TorrentResult where
  title : PyVal
  download_link : PyVal
  size : PyVal
  seeders : Int
  leechers : Int
  downloads : Int
  category : PyVal
  date : PyVal
  deriving DecidableEq, Repr

/-- One iteration of the loop body of `ResultHandler.process_results`
(result_handler.py lines 45-54): build a `TorrentResult` from a raw record.
The constructor arguments evaluate left to right, so the first failing
`int(...)` among seeders, leechers, completed determines the exception. -/
def processItem (item : List (String × PyVal)) : Except String TorrentResult :=
  match pyIntE (rget item "seeders" (PyVal.str "0")) "seeders" with
  | Except.error e => Except.error e
  | Except.ok se =>
      match pyIntE (rget item "leechers" (PyVal.str "0")) "leechers" with
      | Except.error e => Except.error e
      | Except.ok le =>
          match pyIntE (rget item "completed" (PyVal.str "0")) "completed" with
          | Except.error e => Except.error e
          | Except.ok dl =>
              Except.ok
                { title := rget item "title" (PyVal.str "Unknown")
                  download_link := rget item "torrent" (PyVal.str "")
                  size := rget item "size" (PyVal.str "Unknown")
                  seeders := se
                  leechers := le
                  downloads := dl
                  category := rget item "category" (PyVal.str "Unknown")
                  date := rget item "date" (PyVal.str "Unknown") }

/-- The loop of `process_results`: items in order, first exception wins. -/
def processList : List (List (String × PyVal)) → Except String (List TorrentResult)
  | [] => Except.ok []
  | item :: rest =>
      match processItem item with
      | Except.error e => Except.error e
      | Except.ok r =>
          match processList rest with
          | Except.error e => Except.error e
          | Except.ok rs => Except.ok (r :: rs)

/-- The value under the `data` key of a raw API response: search endpoints
(api.py `search_anime`, `search_by_user`) put a list of records there,
`get_torrent_by_id` puts a single record mapping there. -/
inductive RawData where
  | list : List (List (String × PyVal)) → RawData
  | record : List (String × PyVal) → RawData
  deriving DecidableEq, Repr

/-- A raw API response: a mapping with an optional `data` key
(`api_response.get("data", [])` defaults to the empty list). -/
structure RawResponse where
  data : Option RawData
  deriving DecidableEq, Repr

/-- `ResultHandler.process_results`.  `for item in api_response.get("data", [])`
iterates records when `data` is a list; when `data` is a dict (detail
lookup), Python iterates the dict's KEYS, and `key.get(...)` on a string
raises AttributeError at the first key — an empty dict yields zero
iterations and hence an empty result list. -/
def process_results (resp : RawResponse) : Except String (List TorrentResult) :=
  match resp.data with
  | Option.none => Except.ok []
  | Option.some (RawData.list items) => processList items
  | Option.some (RawData.record r) =>
      match r with
      | [] => Except.ok []
      | _ :: _ => Except.error "AttributeError"

/-- The mutable state of a `ResultHandler` instance (result_handler.py
`__init__`, lines 25-31); the rich Console is pure I/O and not modelled. -/
structure ResultHandler where
  current_page : Int
  results_cache : List (String × List TorrentResult)
  last_query : Option String
  current_page_results : List TorrentResult
  deriving DecidableEq, Repr

/-- `ResultHandler.__init__`: page 1, empty cache, no window. -/
def init : ResultHandler :=
  { current_page := 1
    results_cache := []
    last_query := Option.none
    current_page_results := [] }

/-- Clamp of one Python slice index: negative indices count from the end
(floored at 0), non-negative indices are capped at the length. -/
def pySliceBound (len : Nat) (i : Int) : Nat :=
  if i < 0 then ((len : Int) + i).toNat else min i.toNat len

/-- Python `l[i:j]`: the elements with positions in the clamped half-open
interval. -/
def pySlice {α : Type} (l : List α) (i j : Int) : List α :=
  (l.take (pySliceBound l.length j)).drop (pySliceBound l.length i)

/-- `ResultHandler.display_results` (lines 58-104), with the table
rendering dropped: on an empty result list it prints and returns `[]`
without touching the state; otherwise it slices
`results[start_idx:end_idx]`, stores the slice as
`_current_page_results` and returns it. -/
def display_results (s : ResultHandler) (results : List TorrentResult)
    (page_size : Int) : ResultHandler × List TorrentResult :=
  if results = [] then (s, [])
  else
    let start_idx := (s.current_page - 1) * page_size
    let end_idx := start_idx + page_size
    let page_results := pySlice results start_idx end_idx
    ({ s with current_page_results := page_results }, page_results)

/-- `ResultHandler.get_download_link` (lines 115-128): a 1-based selection
inside the current page window yields `(title, download_link)` of that
entry, anything else yields None. -/
def get_download_link (s : ResultHandler) (selection : Int) :
    Option (PyVal × PyVal) :=
  if 1 ≤ selection ∧ selection ≤ (s.current_page_results.length : Int) then
    (s.current_page_results.get? (selection - 1).toNat).map
      (fun r => (r.title, r.download_link))
  else Option.none

/-- `ResultHandler.cache_results` (lines 130-139). -/
def cache_results (s : ResultHandler) (query : String)
    (results : List TorrentResult) : ResultHandler :=
  { s with
      results_cache := dictSet s.results_cache query results
      last_query := Option.some query }

/-- `ResultHandler.get_cached_results` (lines 141-151). -/
def get_cached_results (s : ResultHandler) (query : String) :
    Option (List TorrentResult) :=
  dictFind s.results_cache query

/-- `ResultHandler.next_page`. -/
def next_page (s : ResultHandler) : ResultHandler :=
  { s with current_page := s.current_page + 1 }

/-- `ResultHandler.previous_page`. -/
def previous_page (s : ResultHandler) : ResultHandler :=
  if 1 < s.current_page then { s with current_page := s.current_page - 1 }
  else s

/-- `ResultHandler.reset_pagination`. -/
def reset_pagination (s : ResultHandler) : ResultHandler :=
  { s with current_page := 1 }

/-- `n` successive `next_page` calls. -/
def nextPageIter : Nat → ResultHandler → ResultHandler
  | 0, s => s
  | n + 1, s => nextPageIter n (next_page s)

/-- A sequence of `cache_results` calls, in order. -/
def applyCaches : ResultHandler → List (String × List TorrentResult) → ResultHandler
  | s, [] => s
  | s, (q, rs) :: rest => applyCaches (cache_results s q rs) rest


/-- Sample canonical result used in concrete instantiations. -/
def sampleResult : TorrentResult :=
  ⟨PyVal.str "A", PyVal.str "https://nyaa.si/download/1.torrent", PyVal.str "1.2 GiB",
    12, 3, 40, PyVal.str "Anime - English-translated", PyVal.str "2024-05-01 10:00"⟩

/-- Second sample canonical result. -/
def sampleResult2 : TorrentResult :=
  ⟨PyVal.str "B", PyVal.str "https://nyaa.si/download/2.torrent", PyVal.str "700 MiB",
    5, 1, 9, PyVal.str "Anime - Raw", PyVal.str "2 hours ago"⟩

/-- Third sample canonical result. -/
def sampleResult3 : TorrentResult :=
  ⟨PyVal.str "C", PyVal.str "https://nyaa.si/download/3.torrent", PyVal.str "300 MiB",
    0, 0, 0, PyVal.str "Anime - English-translated", PyVal.str "2023-12-31 23:59"⟩

theorem list_take_min {α : Type} (l : List α) (j : Nat) :
    l.take (min j l.length) = l.take j := by
  rcases le_total j l.length with h | h
  · rw [min_eq_left h]
  · rw [min_eq_right h, List.take_length, List.take_of_length_le h]

/-- For non-negative indices, a Python slice is `take` then `drop`. -/
theorem pySlice_nat {α : Type} (l : List α) (i j : Nat) :
    pySlice l (i : Int) (j : Int) = (l.take j).drop i := by
  unfold pySlice pySliceBound
  rw [if_neg (by omega), if_neg (by omega), Int.toNat_natCast, Int.toNat_natCast,
    list_take_min]
  rcases le_total i l.length with h | h
  · rw [min_eq_left h]
  · rw [min_eq_right h, List.drop_eq_nil_of_le, List.drop_eq_nil_of_le]
    all_goals simp [List.length_take]
    all_goals omega

theorem dictFind_dictSet_self {α : Type} (m : List (String × α)) (k : String) (v : α) :
    dictFind (dictSet m k v) k = Option.some v := by
  induction m with
  | nil => simp [dictSet, dictFind]
  | cons p rest ih =>
      obtain ⟨q, w⟩ := p
      by_cases h : q = k
      · subst h; simp [dictSet, dictFind]
      · simp [dictSet, dictFind, h, ih]

theorem dictFind_dictSet_other {α : Type} (m : List (String × α)) (k q : String) (v : α)
    (h : k ≠ q) : dictFind (dictSet m k v) q = dictFind m q := by
  induction m with
  | nil => simp [dictSet, dictFind, h]
  | cons p rest ih =>
      obtain ⟨k2, w⟩ := p
      by_cases hk : k2 = k
      · subst hk; simp [dictSet, dictFind, h]
      · simp [dictSet, dictFind, hk, ih]

theorem nextPageIter_current_page (n : Nat) (s : ResultHandler) :
    (nextPageIter n s).current_page = s.current_page + (n : Int) := by
  induction n generalizing s with
  | zero => simp [nextPageIter]
  | succ k ih =>
      show (nextPageIter k (next_page s)).current_page = s.current_page + ((k : Int) + 1)
      rw [ih, next_page]
      push_cast
      ring

theorem applyCaches_find_none (ops : List (String × List TorrentResult)) (q : String)
    (hq : ∀ p ∈ ops, p.1 ≠ q) (s : ResultHandler)
    (hs : dictFind s.results_cache q = Option.none) :
    dictFind (applyCaches s ops).results_cache q = Option.none := by
  induction ops generalizing s with
  | nil => simpa [applyCaches] using hs
  | cons p rest ih =>
      obtain ⟨k, rs⟩ := p
      have hk : k ≠ q := hq (k, rs) (by simp)
      show dictFind (applyCaches (cache_results s k rs) rest).results_cache q = Option.none
      refine ih (fun p hp => hq p (by simp [hp])) _ ?_
      simpa [cache_results, dictFind_dictSet_other _ _ _ _ hk] using hs

/-- C6, counterexample: after a previous render stored a non-empty window,
rendering an empty results sequence leaves that stale non-empty window in
place — the early return for empty results skips the window update, so the
stored window is NOT empty afterwards. -/
theorem empty_render_leaves_nonempty_window :
    (display_results { init with current_page_results := [sampleResult2] } [] 10).1.current_page_results
      = [sampleResult2]
  ∧ ([sampleResult2] : List TorrentResult) ≠ [] :=
  ⟨rfl, by decide⟩

/-- C6, amended: calling display_results with an empty results sequence
returns an empty sequence without raising and leaves the whole handler
state — in particular the stored current page window — unchanged (a
previously stored non-empty window persists rather than being cleared). -/
theorem display_results_empty_noop (s : ResultHandler) (page_size : Int) :
    display_results s [] page_size = (s, []) := rfl

/-- C10: each navigation operation next_page, previous_page and
reset_pagination modifies only current_page: the cached results mapping,
the last query and the current page window are unchanged by all three. -/
theorem navigation_frame (s : ResultHandler) :
    ((next_page s).results_cache = s.results_cache
      ∧ (next_page s).last_query = s.last_query
      ∧ (next_page s).current_page_results = s.current_page_results)
  ∧ ((previous_page s).results_cache = s.results_cache
      ∧ (previous_page s).last_query = s.last_query
      ∧ (previous_page s).current_page_results = s.current_page_results)
  ∧ ((reset_pagination s).results_cache = s.results_cache
      ∧ (reset_pagination s).last_query = s.last_query
      ∧ (reset_pagination s).current_page_results = s.current_page_results) := by
  refine ⟨⟨rfl, rfl, rfl⟩, ?_, rfl, rfl, rfl⟩
  unfold previous_page
  split
  · exact ⟨rfl, rfl, rfl⟩
  · exact ⟨rfl, rfl, rfl⟩

/-- C7: current_page ≥ 1 is an invariant preserved by every operation:
it starts at 1, next_page increments it unconditionally with no upper
bound (n iterated calls add exactly n, so from page 1 the page is n+1),
previous_page decrements only when current_page > 1 and is a no-op at
page 1, and reset_pagination sets it to 1. -/
theorem pagination_invariant (s : ResultHandler) (h : 1 ≤ s.current_page) :
    init.current_page = 1
  ∧ 1 ≤ (next_page s).current_page
  ∧ 1 ≤ (previous_page s).current_page
  ∧ (reset_pagination s).current_page = 1
  ∧ (1 < s.current_page → (previous_page s).current_page = s.current_page - 1)
  ∧ (s.current_page = 1 → previous_page s = s)
  ∧ (∀ n : Nat, (nextPageIter n s).current_page = s.current_page + (n : Int)) := by
  refine ⟨rfl, ?_, ?_, rfl, ?_, ?_, fun n => nextPageIter_current_page n s⟩
  · show 1 ≤ s.current_page + 1
    omega
  · unfold previous_page
    by_cases hc : 1 < s.current_page
    · rw [if_pos hc]
      show 1 ≤ s.current_page - 1
      omega
    · rw [if_neg hc]
      omega
  · intro hc
    unfold previous_page
    rw [if_pos hc]
  · intro hc
    unfold previous_page
    rw [if_neg (by omega)]

/-- C7 witness at a concrete state: the freshly initialized handler is at
page 1 and one hundred next_page calls take it to page 101. -/
theorem pagination_invariant_witness :
    1 ≤ init.current_page
  ∧ (nextPageIter 100 init).current_page = init.current_page + ((100 : Nat) : Int) :=
  ⟨by decide, (pagination_invariant init (by decide)).2.2.2.2.2.2 100⟩

/-- C2, counterexample: with an empty results sequence the returned page
equals the slice (empty), but the slice is NOT stored as the current page
window: the early return leaves a previously stored non-empty window in
place, refuting the universally quantified storing clause. -/
theorem display_results_empty_keeps_stale_window :
    (display_results { init with current_page_results := [sampleResult] } [] 10).2 = []
  ∧ (display_results { init with current_page_results := [sampleResult] } [] 10).1.current_page_results
      ≠ [] :=
  ⟨rfl, by decide⟩

/-- C2, amended: for every NON-empty results sequence, positive page_size
and current page p ≥ 1, display_results returns exactly the slice
results[(p-1)*page_size : (p-1)*page_size + page_size] and stores that
slice as the current page window — a page past the end of the sequence
yields an empty (or short) window rather than an error; for the empty
sequence it returns an empty list but leaves the stored window unchanged. -/
theorem display_results_slices (s : ResultHandler) (results : List TorrentResult)
    (page_size p : Nat) (hp : s.current_page = (p : Int)) (h1 : 1 ≤ p)
    (hps : 0 < page_size) (hne : results ≠ []) :
    display_results s results (page_size : Int)
      = ({ s with current_page_results :=
            (results.take ((p - 1) * page_size + page_size)).drop ((p - 1) * page_size) },
          (results.take ((p - 1) * page_size + page_size)).drop ((p - 1) * page_size)) := by
  have hstart : (s.current_page - 1) * (page_size : Int) = (((p - 1) * page_size : Nat) : Int) := by
    rw [hp]
    push_cast [Nat.cast_sub h1]
    ring
  have hend : (((p - 1) * page_size : Nat) : Int) + (page_size : Int)
      = (((p - 1) * page_size + page_size : Nat) : Int) := by
    push_cast
    ring
  simp only [display_results]
  rw [if_neg hne, hstart, hend, pySlice_nat]

/-- A handler state sitting at page 2, for concrete instantiations. -/
def pageTwo : ResultHandler := { init with current_page := 2 }

/-- C2 witness at a concrete input: at page 2 with page size 2 over three
results, the rendered and stored window is exactly the third result. -/
theorem display_results_slices_witness :
    display_results pageTwo [sampleResult, sampleResult2, sampleResult3] (((2 : Nat)) : Int)
      = ({ pageTwo with current_page_results := [sampleResult3] }, [sampleResult3]) :=
  (display_results_slices pageTwo [sampleResult, sampleResult2, sampleResult3] 2 2 rfl
    (by decide) (by decide) (by decide)).trans (by decide)

/-- C8: get_download_link returns the (title, download_link) pair of the
window entry at a 1-based ordinal exactly when 1 ≤ ordinal ≤ window
length; every ordinal outside that range (including 0 and length + 1)
yields the None sentinel rather than an error. -/
theorem get_download_link_spec (s : ResultHandler) (n : Int) :
    (1 ≤ n ∧ n ≤ (s.current_page_results.length : Int) →
       ∃ r, s.current_page_results.get? (n - 1).toNat = Option.some r
            ∧ get_download_link s n = Option.some (r.title, r.download_link))
  ∧ (¬(1 ≤ n ∧ n ≤ (s.current_page_results.length : Int)) →
       get_download_link s n = Option.none) := by
  constructor
  · intro hrange
    have hlt : (n - 1).toNat < s.current_page_results.length := by omega
    refine ⟨s.current_page_results.get ⟨(n - 1).toNat, hlt⟩, List.get?_eq_get hlt, ?_⟩
    unfold get_download_link
    rw [if_pos hrange, List.get?_eq_get hlt]
    rfl
  · intro hrange
    unfold get_download_link
    rw [if_neg hrange]

/-- C8 witness: on a window holding exactly one entry, ordinal 1 is in
range and resolves to that entry's title and download link. -/
theorem get_download_link_spec_witness :
    ∃ r, ({ init with current_page_results := [sampleResult] } : ResultHandler).current_page_results.get?
          ((1 : Int) - 1).toNat = Option.some r
      ∧ get_download_link { init with current_page_results := [sampleResult] } 1
          = Option.some (r.title, r.download_link) :=
  (get_download_link_spec { init with current_page_results := [sampleResult] } 1).1 (by decide)

/-- C9: after cache_results(label, results), looking that label up returns
exactly that sequence whatever the cache previously held for it (the
overwrite is wholesale), cache_results does not alter current_page, and
looking up a label never cached — after any sequence of cache operations
on other labels starting from a fresh handler — returns None. -/
theorem cache_results_spec (s : ResultHandler) (q : String) (rs : List TorrentResult)
    (ops : List (String × List TorrentResult)) (hq : ∀ p ∈ ops, p.1 ≠ q) :
    get_cached_results (cache_results s q rs) q = Option.some rs
  ∧ (cache_results s q rs).current_page = s.current_page
  ∧ get_cached_results (applyCaches init ops) q = Option.none := by
  refine ⟨?_, rfl, ?_⟩
  · exact dictFind_dictSet_self s.results_cache q rs
  · exact applyCaches_find_none ops q hq init rfl

/-- C9 witness at concrete labels: caching under "naruto" is retrievable,
leaves the page untouched, and a fresh handler that only ever cached
"bleach" has nothing under "naruto". -/
theorem cache_results_spec_witness :
    get_cached_results (cache_results init "naruto" [sampleResult]) "naruto"
      = Option.some [sampleResult]
  ∧ (cache_results init "naruto" [sampleResult]).current_page = init.current_page
  ∧ get_cached_results (applyCaches init [("bleach", [sampleResult2])]) "naruto"
      = Option.none :=
  cache_results_spec init "naruto" [sampleResult] [("bleach", [sampleResult2])] (by decide)

/-- Field characterization of a successful `processItem`: every string
field is the raw value under its key (or its per-field default when the
key is absent), and each numeric field is exactly what `int(...)` parsed. -/
theorem processItem_ok (item : List (String × PyVal)) (r : TorrentResult)
    (hr : processItem item = Except.ok r) :
    pyInt (rget item "seeders" (PyVal.str "0")) = Option.some r.seeders
  ∧ pyInt (rget item "leechers" (PyVal.str "0")) = Option.some r.leechers
  ∧ pyInt (rget item "completed" (PyVal.str "0")) = Option.some r.downloads
  ∧ r.title = rget item "title" (PyVal.str "Unknown")
  ∧ r.date = rget item "date" (PyVal.str "Unknown")
  ∧ r.download_link = rget item "torrent" (PyVal.str "")
  ∧ r.size = rget item "size" (PyVal.str "Unknown")
  ∧ r.category = rget item "category" (PyVal.str "Unknown") := by
  rcases hs : pyInt (rget item "seeders" (PyVal.str "0")) with _ | se
  · simp [processItem, pyIntE, hs] at hr
  rcases hl : pyInt (rget item "leechers" (PyVal.str "0")) with _ | le
  · simp [processItem, pyIntE, hs, hl] at hr
  rcases hd : pyInt (rget item "completed" (PyVal.str "0")) with _ | dl
  · simp [processItem, pyIntE, hs, hl, hd] at hr
  simp only [processItem, pyIntE, hs, hl, hd] at hr
  cases hr
  exact ⟨rfl, rfl, rfl, rfl, rfl, rfl, rfl, rfl⟩

/-- C1, counterexample: a record whose seeders field is the non-numeric
string "abc" makes normalization raise ValueError instead of degrading
the field to 0 — only an ABSENT numeric field defaults to 0. -/
theorem process_results_raises_on_nonnumeric :
    process_results ⟨Option.some (RawData.list [[("seeders", PyVal.str "abc")]])⟩
      = Except.error "ValueError: seeders" := rfl

/-- C1, amended: the numeric fields go through int() parsing; an absent
field defaults (via the "0" default of item.get) to 0, and on a
successful normalization every present numeric value parsed as an
integer — but a value that fails integer parsing (a non-numeric string,
or None) makes normalization raise rather than yield 0. -/
theorem numeric_fields_parse_or_raise (item : List (String × PyVal)) :
    (pyInt (rget item "seeders" (PyVal.str "0")) = Option.none →
        processItem item = Except.error "ValueError: seeders")
  ∧ (∀ r, processItem item = Except.ok r →
        pyInt (rget item "seeders" (PyVal.str "0")) = Option.some r.seeders
      ∧ pyInt (rget item "leechers" (PyVal.str "0")) = Option.some r.leechers
      ∧ pyInt (rget item "completed" (PyVal.str "0")) = Option.some r.downloads)
  ∧ (dictFind item "seeders" = Option.none →
        ∀ r, processItem item = Except.ok r → r.seeders = 0) := by
  refine ⟨?_, ?_, ?_⟩
  · intro hs
    simp [processItem, pyIntE, hs]
  · intro r hr
    obtain ⟨h1, h2, h3, _⟩ := processItem_ok item r hr
    exact ⟨h1, h2, h3⟩
  · intro hfind r hr
    obtain ⟨h1, _⟩ := processItem_ok item r hr
    have hdef : rget item "seeders" (PyVal.str "0") = PyVal.str "0" := by
      simp [rget, hfind]
    rw [hdef] at h1
    have h0 : pyInt (PyVal.str "0") = Option.some 0 := rfl
    rw [h0] at h1
    exact (Option.some.inj h1).symm

/-- C1 witness: a None (null) seeders value fails int() parsing and
normalization of that record raises. -/
theorem numeric_fields_parse_or_raise_witness :
    pyInt (rget [("seeders", PyVal.vnone)] "seeders" (PyVal.str "0")) = Option.none
  ∧ processItem [("seeders", PyVal.vnone)] = Except.error "ValueError: seeders" :=
  ⟨rfl, (numeric_fields_parse_or_raise [("seeders", PyVal.vnone)]).1 rfl⟩

/-- C3, counterexample: a detail-lookup response, whose data key holds a
single record mapping, does not normalize into a one-element sequence —
iterating the mapping yields its keys and the first field access on a key
raises AttributeError. -/
theorem process_results_record_data_errors :
    process_results ⟨Option.some (RawData.record [("id", PyVal.str "1")])⟩
      = Except.error "AttributeError" := rfl

/-- C3, amended: when the data key holds a single record mapping, the
normalizer does NOT apply the per-record mapping rule: Python iterates the
mapping's keys, so every non-empty record raises AttributeError (and the
degenerate empty mapping yields an empty sequence, not one of length 1);
the repository's detail path (cli.py view/torrent) displays the record
directly without calling the normalizer. -/
theorem record_data_not_normalized (r : List (String × PyVal)) (h : r ≠ []) :
    process_results ⟨Option.some (RawData.record r)⟩ = Except.error "AttributeError"
  ∧ process_results ⟨Option.some (RawData.record [])⟩ = Except.ok [] := by
  constructor
  · cases r with
    | nil => exact absurd rfl h
    | cons a rest => rfl
  · rfl

/-- C3 witness: a concrete one-field record mapping under data is
non-empty and makes the normalizer raise. -/
theorem record_data_not_normalized_witness :
    ([("title", PyVal.str "X")] : List (String × PyVal)) ≠ []
  ∧ process_results ⟨Option.some (RawData.record [("title", PyVal.str "X")])⟩
      = Except.error "AttributeError" :=
  ⟨by decide, (record_data_not_normalized [("title", PyVal.str "X")] (by decide)).1⟩

/-- C4: the search rows emitted by api.py carry the date under the "time"
key, but process_results reads only the "date" key, so such a record
normalizes with the "Unknown" sentinel in place of the carried date — the
normalizer does not treat "time" as a synonym of "date". -/
theorem time_key_yields_unknown_date :
    process_results ⟨Option.some (RawData.list [[("title", PyVal.str "X"),
        ("time", PyVal.str "2025-01-02 03:04"), ("seeders", PyVal.int 5),
        ("leechers", PyVal.int 1), ("completed", PyVal.int 9)]])⟩
      = Except.ok [⟨PyVal.str "X", PyVal.str "", PyVal.str "Unknown", 5, 1, 9,
          PyVal.str "Unknown", PyVal.str "Unknown"⟩]
  ∧ PyVal.str "Unknown" ≠ PyVal.str "2025-01-02 03:04" :=
  ⟨rfl, by decide⟩

/-- C5, counterexample: an unparseable date string is NOT replaced by the
"Unknown" sentinel — it passes through unchanged, because the normalizer
performs no date parsing or reformatting at all. -/
theorem unparseable_date_passes_through :
    process_results ⟨Option.some (RawData.list [[("date", PyVal.str "not-a-date")]])⟩
      = Except.ok [⟨PyVal.str "Unknown", PyVal.str "", PyVal.str "Unknown", 0, 0, 0,
          PyVal.str "Unknown", PyVal.str "not-a-date"⟩]
  ∧ PyVal.str "not-a-date" ≠ PyVal.str "Unknown" :=
  ⟨rfl, by decide⟩

/-- C5, amended: the normalized date field is the raw value under the
"date" key passed through UNCHANGED whatever its shape (relative-time
strings, absolute timestamps in any format, and unparseable strings
alike); the "Unknown" sentinel arises only when the "date" key is absent.
No reformatting to a YYYY-MM-DD HH:MM pattern is performed. -/
theorem date_field_passthrough (item : List (String × PyVal)) (r : TorrentResult)
    (h : processItem item = Except.ok r) :
    r.date = rget item "date" (PyVal.str "Unknown") :=
  (processItem_ok item r h).2.2.2.2.1

/-- C5 witness: a relative-time date string is carried through unchanged
on a concrete record. -/
theorem date_field_passthrough_witness :
    (⟨PyVal.str "Unknown", PyVal.str "", PyVal.str "Unknown", 0, 0, 0,
        PyVal.str "Unknown", PyVal.str "3 hours ago"⟩ : TorrentResult).date
      = rget [("date", PyVal.str "3 hours ago")] "date" (PyVal.str "Unknown") :=
  date_field_passthrough [("date", PyVal.str "3 hours ago")]
    ⟨PyVal.str "Unknown", PyVal.str "", PyVal.str "Unknown", 0, 0, 0,
      PyVal.str "Unknown", PyVal.str "3 hours ago"⟩ rfl
